import Mathlib

set_option maxRecDepth 8192

/-!
Shallow embedding of `src/monitor_ebpf.c`, the eBPF event-capture layer of
the ransomware detector.  The C file declares one record type `data_t`,
one perf output channel, and three tracepoint handlers
(`sys_enter_openat`, `sys_enter_write`, `sys_enter_unlinkat`).

Bytes are modelled as `Nat`; C strings are byte lists whose semantic
content is the prefix before the first zero byte (`cstr`).  A user-space
pointer argument is modelled as `Option (List Nat)`: `none` is an
invalid/unmapped pointer (the read helper faults), `some s` is a readable
pointer at which memory holds the bytes `s` (the string content being
`cstr s`; a terminating zero byte is part of `s` unless the string runs
past `s`).
-/

namespace Monitor

/-- `TASK_COMM_LEN` from `linux/sched.h`. -/
def TASK_COMM_LEN : Nat := 16

/-- The content of a C string stored in a byte list: the bytes strictly
before the first zero byte. -/
def cstr : List Nat → List Nat
  | [] => []
  | b :: r => if b = 0 then [] else b :: cstr r

/-- `struct data_t` from `monitor_ebpf.c`, fields in declaration order:
`u32 pid; char comm[TASK_COMM_LEN]; char filename[256]; int syscall;
int fd; u64 count;`.  The extra `pad` field models the four implicit
padding bytes the ABI inserts between `fd` and `count` to align the
`u64`; they are part of the bytes `perf_submit` copies out. -/
structure data_t where
  pid : Nat
  comm : List Nat
  filename : List Nat
  syscall : Int
  fd : Int
  count : Nat
  pad : List Nat
  deriving Repr, DecidableEq

/-- `struct data_t data = {};` — the zero-initialised record: every
member, including both character arrays and the padding bytes, is zero. -/
def data_t_zero : data_t where
  pid := 0
  comm := List.replicate TASK_COMM_LEN 0
  filename := List.replicate 256 0
  syscall := 0
  fd := 0
  count := 0
  pad := List.replicate 4 0

/-- Metadata of the calling task, as exposed by the kernel helpers.
`tgid` is the thread-group id (the process id), `tid` the thread id;
both are 32-bit values.  `comm` is the kernel-recorded short executable
name of the task. -/
structure TaskCtx where
  tgid : Nat
  tid : Nat
  comm : List Nat
  tgid_lt : tgid < 2 ^ 32
  tid_lt : tid < 2 ^ 32

/-- `bpf_get_current_pid_tgid()`: returns `current->tgid << 32 |
current->pid` as a `u64`. -/
def bpf_get_current_pid_tgid (t : TaskCtx) : Nat :=
  t.tgid * 2 ^ 32 + t.tid

/-- `bpf_get_current_comm(buf, size)`: fills `buf` with the task's
`comm`, truncated to `size - 1` content bytes, zero-padded to `size`
bytes (hence always null-terminated). -/
def bpf_get_current_comm (size : Nat) (name : List Nat) : List Nat :=
  let s := (cstr name).take (size - 1)
  s ++ List.replicate (size - s.length) 0

/-- `bpf_probe_read_user_str(buf, size, src)` acting on a destination
buffer `buf` of length `size`.  On a faulting source pointer the helper
zeroes the whole destination (`memset(dst, 0, size)` in
`bpf_probe_read_user_str_common`).  On a readable pointer it copies the
source string up to and including its terminator when it fits, otherwise
the first `size - 1` bytes followed by a forced terminator; destination
bytes past what is written keep their previous contents. -/
def bpf_probe_read_user_str (size : Nat) (buf : List Nat)
    (src : Option (List Nat)) : List Nat :=
  match src with
  | none => List.replicate size 0
  | some s =>
      let t := cstr s
      let written := if t.length < size then t ++ [0] else t.take (size - 1) ++ [0]
      written ++ buf.drop written.length

/-- Conversion of a C `unsigned int` value to a C `int` (two's
complement reinterpretation), used by `data.fd = args->fd`. -/
def toInt32 (x : Nat) : Int :=
  if x % 2 ^ 32 < 2 ^ 31 then (x % 2 ^ 32 : Int) else (x % 2 ^ 32 : Int) - 2 ^ 32

/-- `TRACEPOINT_PROBE(syscalls, sys_enter_openat)`.  `stack` is whatever
the handler's stack slot held before the declaration; the initialiser
`= {}` replaces it entirely with `data_t_zero`.  Returns the record
passed to `events.perf_submit` together with the handler's return
value. -/
def sys_enter_openat (stack : data_t) (t : TaskCtx)
    (filename_arg : Option (List Nat)) : data_t × Int :=
  let _ := stack
  let data := data_t_zero
  let data := { data with syscall := 1 }
  let data := { data with pid := (bpf_get_current_pid_tgid t >>> 32) % 2 ^ 32 }
  let data := { data with comm := bpf_get_current_comm TASK_COMM_LEN t.comm }
  let data := { data with
    filename := bpf_probe_read_user_str 256 data.filename filename_arg }
  let data := { data with fd := -1 }
  let data := { data with count := 0 }
  (data, 0)

/-- `TRACEPOINT_PROBE(syscalls, sys_enter_write)`.  `fd` is the
tracepoint's `unsigned int fd` argument, `count` its `size_t count`
argument; no user memory is read. -/
def sys_enter_write (stack : data_t) (t : TaskCtx)
    (fd : Nat) (count : Nat) : data_t × Int :=
  let _ := stack
  let data := data_t_zero
  let data := { data with syscall := 2 }
  let data := { data with pid := (bpf_get_current_pid_tgid t >>> 32) % 2 ^ 32 }
  let data := { data with comm := bpf_get_current_comm TASK_COMM_LEN t.comm }
  let data := { data with filename := data.filename.set 0 0 }
  let data := { data with fd := toInt32 fd }
  let data := { data with count := count % 2 ^ 64 }
  (data, 0)

/-- `TRACEPOINT_PROBE(syscalls, sys_enter_unlinkat)`. -/
def sys_enter_unlinkat (stack : data_t) (t : TaskCtx)
    (pathname_arg : Option (List Nat)) : data_t × Int :=
  let _ := stack
  let data := data_t_zero
  let data := { data with syscall := 3 }
  let data := { data with pid := (bpf_get_current_pid_tgid t >>> 32) % 2 ^ 32 }
  let data := { data with comm := bpf_get_current_comm TASK_COMM_LEN t.comm }
  let data := { data with
    filename := bpf_probe_read_user_str 256 data.filename pathname_arg }
  let data := { data with fd := -1 }
  let data := { data with count := 0 }
  (data, 0)

/-- A field of a C struct layout: name, byte offset, byte size. -/
structure FieldSpec where
  name : String
  offset : Nat
  size : Nat
  deriving Repr, DecidableEq

/-- Round `off` up to a multiple of `a`. -/
def alignUp (off a : Nat) : Nat := (off + a - 1) / a * a

/-- Lay out struct fields given `(name, alignment, size)` triples,
assigning each field the next suitably aligned offset. -/
def layoutFields : List (String × Nat × Nat) → Nat → List FieldSpec
  | [], _ => []
  | (n, a, s) :: rest, off =>
      let o := alignUp off a
      ⟨n, o, s⟩ :: layoutFields rest (o + s)

/-- The members of `struct data_t` in declaration order, with their
x86-64 ABI alignments and sizes: `u32 pid`, `char comm[16]`,
`char filename[256]`, `int syscall`, `int fd`, `u64 count`. -/
def data_t_members : List (String × Nat × Nat) :=
  [("pid", 4, 4), ("comm", 1, 16), ("filename", 1, 256),
   ("syscall", 4, 4), ("fd", 4, 4), ("count", 8, 8)]

/-- The binary layout of `struct data_t` as handed to the consumer. -/
def data_t_layout : List FieldSpec := layoutFields data_t_members 0

/-! ### Basic facts about `cstr` and the copy helpers -/

lemma cstr_append_zero {t : List Nat} (r : List Nat) (h : ∀ b ∈ t, b ≠ 0) :
    cstr (t ++ 0 :: r) = t := by
  induction t with
  | nil => simp [cstr]
  | cons a t ih =>
      have ha : a ≠ 0 := h a (by simp)
      simp only [List.cons_append, cstr, if_neg ha, List.append_eq]
      rw [ih (fun b hb => h b (by simp [hb]))]

lemma cstr_eq_self {s : List Nat} (h : ∀ b ∈ s, b ≠ 0) : cstr s = s := by
  induction s with
  | nil => rfl
  | cons a t ih =>
      have ha : a ≠ 0 := h a (by simp)
      simp only [cstr, if_neg ha]
      rw [ih (fun b hb => h b (by simp [hb]))]

lemma mem_cstr_ne_zero {s : List Nat} : ∀ b ∈ cstr s, b ≠ 0 := by
  induction s with
  | nil => simp [cstr]
  | cons a t ih =>
      by_cases ha : a = 0
      · simp [cstr, ha]
      · simp only [cstr, if_neg ha]
        intro b hb
        rcases List.mem_cons.mp hb with h1 | h2
        · exact h1 ▸ ha
        · exact ih b h2

lemma cstr_replicate_zero (n : Nat) : cstr (List.replicate n 0) = [] := by
  cases n <;> simp [cstr, List.replicate]

lemma cstr_length_le (s : List Nat) : (cstr s).length ≤ s.length := by
  induction s with
  | nil => simp [cstr]
  | cons a t ih =>
      by_cases ha : a = 0
      · simp [cstr, ha]
      · simp only [cstr, if_neg ha, List.length_cons]
        omega

lemma take_eq_cstr_take {s : List Nat} {n : Nat} (h : n ≤ (cstr s).length) :
    s.take n = (cstr s).take n := by
  induction s generalizing n with
  | nil => simp [cstr]
  | cons a t ih =>
      by_cases ha : a = 0
      · simp only [cstr, if_pos ha, List.length_nil, Nat.le_zero] at h
        simp [h]
      · cases n with
        | zero => simp
        | succ n =>
            simp only [cstr, if_neg ha, List.length_cons, Nat.succ_le_succ_iff] at h
            simp only [List.take_succ_cons, cstr, if_neg ha]
            rw [ih h]

/-- What an `openat`/`unlinkat` handler's path buffer holds after a
successful read of the string `s`. -/
lemma read_str_some (s : List Nat) :
    bpf_probe_read_user_str 256 (List.replicate 256 0) (some s) =
      if (cstr s).length < 256 then
        cstr s ++ 0 :: List.replicate (255 - (cstr s).length) 0
      else (cstr s).take 255 ++ [0] := by
  by_cases h : (cstr s).length < 256
  · simp only [bpf_probe_read_user_str, if_pos h, List.drop_replicate]
    have : 256 - (cstr s ++ [0]).length = 255 - (cstr s).length := by
      simp only [List.length_append, List.length_cons, List.length_nil]
      omega
    rw [this]
    simp
  · have hlen : ((cstr s).take 255).length = 255 := by
      rw [List.length_take]; omega
    simp only [bpf_probe_read_user_str, if_neg h, List.drop_replicate]
    have : 256 - ((cstr s).take 255 ++ [0]).length = 0 := by
      simp [hlen]
    rw [this]
    simp

/-- The `pid` field each handler stores: the upper 32 bits of
`bpf_get_current_pid_tgid()` are exactly the thread-group id. -/
lemma pid_field (t : TaskCtx) :
    (bpf_get_current_pid_tgid t >>> 32) % 2 ^ 32 = t.tgid := by
  have ht := t.tid_lt
  have hg := t.tgid_lt
  unfold bpf_get_current_pid_tgid
  rw [Nat.shiftRight_eq_div_pow, Nat.mul_comm, Nat.mul_add_div (by positivity),
    Nat.div_eq_of_lt ht, Nat.add_zero, Nat.mod_eq_of_lt hg]

/-- The path buffer always has exactly the capacity's 256 bytes. -/
lemma read_str_length (src : Option (List Nat)) :
    (bpf_probe_read_user_str 256 (List.replicate 256 0) src).length = 256 := by
  cases src with
  | none =>
      have h1 : bpf_probe_read_user_str 256 (List.replicate 256 0) none =
          List.replicate 256 0 := rfl
      rw [h1, List.length_replicate]
  | some s =>
      rw [read_str_some]
      by_cases h : (cstr s).length < 256
      · rw [if_pos h]
        simp only [List.length_append, List.length_cons, List.length_replicate]
        omega
      · rw [if_neg h]
        simp only [List.length_append, List.length_take, List.length_cons,
          List.length_nil]
        omega

/-- The path buffer always contains a null terminator. -/
lemma read_str_mem_zero (src : Option (List Nat)) :
    0 ∈ bpf_probe_read_user_str 256 (List.replicate 256 0) src := by
  cases src with
  | none =>
      have h1 : bpf_probe_read_user_str 256 (List.replicate 256 0) none =
          List.replicate 256 0 := rfl
      rw [h1, List.mem_replicate]
      omega
  | some s =>
      rw [read_str_some]
      by_cases h : (cstr s).length < 256
      · rw [if_pos h]; simp
      · rw [if_neg h]; simp

/-- The string content of the path buffer is the source string truncated
to 255 bytes. -/
lemma read_str_cstr (s : List Nat) :
    cstr (bpf_probe_read_user_str 256 (List.replicate 256 0) (some s)) =
      (cstr s).take 255 := by
  rw [read_str_some]
  by_cases h : (cstr s).length < 256
  · rw [if_pos h, cstr_append_zero _ mem_cstr_ne_zero,
      List.take_of_length_le (by omega)]
  · rw [if_neg h]
    exact cstr_append_zero _ (fun b hb => mem_cstr_ne_zero b (List.take_subset _ _ hb))

/-- Every byte of the path buffer past the stored string's terminator is
zero. -/
lemma read_str_tail (src : Option (List Nat)) :
    ∃ k, bpf_probe_read_user_str 256 (List.replicate 256 0) src =
      cstr (bpf_probe_read_user_str 256 (List.replicate 256 0) src)
        ++ 0 :: List.replicate k 0 := by
  cases src with
  | none =>
      refine ⟨255, ?_⟩
      have h1 : bpf_probe_read_user_str 256 (List.replicate 256 0) none =
          List.replicate 256 0 := rfl
      rw [h1, cstr_replicate_zero, List.nil_append]
      decide
  | some s =>
      rw [read_str_some]
      by_cases h : (cstr s).length < 256
      · refine ⟨255 - (cstr s).length, ?_⟩
        rw [if_pos h, cstr_append_zero _ mem_cstr_ne_zero]
      · refine ⟨0, ?_⟩
        rw [if_neg h,
          cstr_append_zero _ (fun b hb => mem_cstr_ne_zero b (List.take_subset _ _ hb))]
        rfl

/-- Every byte of the `comm` buffer past the stored name's terminator is
zero. -/
lemma comm_tail (name : List Nat) :
    ∃ k, bpf_get_current_comm TASK_COMM_LEN name =
      cstr (bpf_get_current_comm TASK_COMM_LEN name) ++ 0 :: List.replicate k 0 := by
  have hb : bpf_get_current_comm TASK_COMM_LEN name =
      (cstr name).take 15 ++ List.replicate (16 - ((cstr name).take 15).length) 0 :=
    rfl
  have hlen : ((cstr name).take 15).length ≤ 15 := by
    rw [List.length_take]; omega
  have hrep : List.replicate (16 - ((cstr name).take 15).length) 0 =
      0 :: List.replicate (15 - ((cstr name).take 15).length) 0 := by
    rw [show 16 - ((cstr name).take 15).length =
        15 - ((cstr name).take 15).length + 1 by omega, List.replicate_succ]
  refine ⟨15 - ((cstr name).take 15).length, ?_⟩
  rw [hb, hrep,
    cstr_append_zero _ (fun b hbm => mem_cstr_ne_zero b (List.take_subset _ _ hbm))]

/-- The write handler's path buffer holds the empty string. -/
lemma write_filename_empty :
    cstr ((List.replicate 256 0).set 0 0) = [] := by
  decide

/-- `toInt32` is the identity on values representable in a C `int`. -/
lemma toInt32_small {x : Nat} (h : x < 2 ^ 31) : toInt32 x = (x : Int) := by
  unfold toInt32
  rw [if_pos (show x % 2 ^ 32 < 2 ^ 31 by omega)]
  omega

/-- A concrete task context used by the witnesses: a `bash` task with
tgid 1234 and tid 5678. -/
def tEx : TaskCtx := ⟨1234, 5678, [98, 97, 115, 104, 0], by norm_num, by norm_num⟩

/-! ### The claims -/

/-- Claim C1: for every OPENAT or UNLINKAT invocation, the path copy
into the fixed 256-byte buffer never writes past capacity (the buffer
always has exactly 256 bytes) and is always null-terminated; for any
source path longer than 255 bytes the emitted path holds exactly the
first 255 bytes of the source followed by a null terminator. -/
theorem openat_unlinkat_path_copy_bounded (st : data_t) (t : TaskCtx)
    (src : Option (List Nat)) (s : List Nat) (hs : 256 ≤ (cstr s).length) :
    ((sys_enter_openat st t src).1.filename.length = 256
        ∧ 0 ∈ (sys_enter_openat st t src).1.filename
        ∧ (sys_enter_unlinkat st t src).1.filename.length = 256
        ∧ 0 ∈ (sys_enter_unlinkat st t src).1.filename)
      ∧ (sys_enter_openat st t (some s)).1.filename = s.take 255 ++ [0]
      ∧ (sys_enter_unlinkat st t (some s)).1.filename = s.take 255 ++ [0] := by
  have htr : bpf_probe_read_user_str 256 (List.replicate 256 0) (some s) =
      s.take 255 ++ [0] := by
    have h255 : s.take 255 = (cstr s).take 255 :=
      take_eq_cstr_take (by omega)
    rw [read_str_some, if_neg (by omega), h255]
  exact ⟨⟨read_str_length src, read_str_mem_zero src,
      read_str_length src, read_str_mem_zero src⟩, htr, htr⟩

/-- Witness for C1 at a concrete 300-byte path. -/
theorem openat_unlinkat_path_copy_bounded_witness :
    256 ≤ (cstr (List.replicate 300 1)).length
      ∧ (sys_enter_openat data_t_zero tEx (some (List.replicate 300 1))).1.filename
          = (List.replicate 300 1).take 255 ++ [0] :=
  ⟨by decide, (openat_unlinkat_path_copy_bounded data_t_zero tEx
      (some (List.replicate 300 1)) (List.replicate 300 1) (by decide)).2.1⟩

/-- Claim C2: a failed user-memory read of the path argument (an
invalid/unmapped pointer, modelled by `none`) still yields a submitted
record with the syscall kind, pid and comm populated and an empty
null-terminated path, and the handler still returns 0 — for both
`sys_enter_openat` and `sys_enter_unlinkat`. -/
theorem failed_read_still_emits (st : data_t) (t : TaskCtx) :
    ((sys_enter_openat st t none).1.syscall = 1
        ∧ (sys_enter_openat st t none).1.pid = t.tgid
        ∧ (sys_enter_openat st t none).1.comm =
            bpf_get_current_comm TASK_COMM_LEN t.comm
        ∧ cstr (sys_enter_openat st t none).1.filename = []
        ∧ (sys_enter_openat st t none).2 = 0)
      ∧ ((sys_enter_unlinkat st t none).1.syscall = 3
        ∧ (sys_enter_unlinkat st t none).1.pid = t.tgid
        ∧ (sys_enter_unlinkat st t none).1.comm =
            bpf_get_current_comm TASK_COMM_LEN t.comm
        ∧ cstr (sys_enter_unlinkat st t none).1.filename = []
        ∧ (sys_enter_unlinkat st t none).2 = 0) :=
  ⟨⟨rfl, pid_field t, rfl, cstr_replicate_zero 256, rfl⟩,
   ⟨rfl, pid_field t, rfl, cstr_replicate_zero 256, rfl⟩⟩

/-- Claim C3: an OPENAT invocation whose path argument is a readable
string of at most 255 bytes emits a record with kind 1, path equal to
the argument, `fd = -1` and `byte_count = 0`. -/
theorem openat_short_path_record (st : data_t) (t : TaskCtx) (s : List Nat)
    (h0 : ∀ b ∈ s, b ≠ 0) (hlen : s.length ≤ 255) :
    (sys_enter_openat st t (some s)).1.syscall = 1
      ∧ cstr (sys_enter_openat st t (some s)).1.filename = s
      ∧ (sys_enter_openat st t (some s)).1.fd = -1
      ∧ (sys_enter_openat st t (some s)).1.count = 0 := by
  refine ⟨rfl, ?_, rfl, rfl⟩
  show cstr (bpf_probe_read_user_str 256 (List.replicate 256 0) (some s)) = s
  rw [read_str_cstr s, cstr_eq_self h0, List.take_of_length_le hlen]

/-- Witness for C3 at the concrete path `/tmp`. -/
theorem openat_short_path_record_witness :
    cstr (sys_enter_openat data_t_zero tEx (some [47, 116, 109, 112])).1.filename
      = [47, 116, 109, 112] :=
  (openat_short_path_record data_t_zero tEx [47, 116, 109, 112]
      (by decide) (by decide)).2.1

/-- Claim C4: every WRITE invocation emits a record with kind 2, an
empty path, and `fd`/`byte_count` equal to the syscall's arguments
(which fit their C types: `fd` a valid descriptor below `2^31`, `count`
a `size_t`); the handler reads no user memory. -/
theorem write_record_fields (st : data_t) (t : TaskCtx) (fd cnt : Nat)
    (hfd : fd < 2 ^ 31) (hcnt : cnt < 2 ^ 64) :
    (sys_enter_write st t fd cnt).1.syscall = 2
      ∧ cstr (sys_enter_write st t fd cnt).1.filename = []
      ∧ (sys_enter_write st t fd cnt).1.fd = (fd : Int)
      ∧ (sys_enter_write st t fd cnt).1.count = cnt := by
  refine ⟨rfl, write_filename_empty, ?_, ?_⟩
  · show toInt32 fd = (fd : Int)
    exact toInt32_small hfd
  · show cnt % 2 ^ 64 = cnt
    exact Nat.mod_eq_of_lt hcnt

/-- Witness for C4 at `fd = 3`, `count = 4096`. -/
theorem write_record_fields_witness :
    (sys_enter_write data_t_zero tEx 3 4096).1.fd = 3
      ∧ (sys_enter_write data_t_zero tEx 3 4096).1.count = 4096 :=
  ⟨(write_record_fields data_t_zero tEx 3 4096 (by norm_num) (by norm_num)).2.2.1,
   (write_record_fields data_t_zero tEx 3 4096 (by norm_num) (by norm_num)).2.2.2⟩

/-- Claim C5: every UNLINKAT invocation with a readable pathname emits a
record with kind 3, path equal to the pathname argument truncated to 255
bytes, `fd = -1` and `byte_count = 0`. -/
theorem unlinkat_record_fields (st : data_t) (t : TaskCtx) (s : List Nat) :
    (sys_enter_unlinkat st t (some s)).1.syscall = 3
      ∧ cstr (sys_enter_unlinkat st t (some s)).1.filename = (cstr s).take 255
      ∧ (sys_enter_unlinkat st t (some s)).1.fd = -1
      ∧ (sys_enter_unlinkat st t (some s)).1.count = 0 :=
  ⟨rfl, read_str_cstr s, rfl, rfl⟩

/-- Claim C6: every record submitted by any of the three handlers has a
`syscall` kind in the enumerated set 1, 2, 3, and the fields not
meaningful for that kind hold their sentinels: `fd = -1` and
`count = 0` for OPENAT and UNLINKAT, an empty path for WRITE. -/
theorem record_schema_invariants (st : data_t) (t : TaskCtx)
    (src : Option (List Nat)) (fd cnt : Nat) :
    ((sys_enter_openat st t src).1.syscall ∈ ([1, 2, 3] : List Int)
        ∧ (sys_enter_write st t fd cnt).1.syscall ∈ ([1, 2, 3] : List Int)
        ∧ (sys_enter_unlinkat st t src).1.syscall ∈ ([1, 2, 3] : List Int))
      ∧ ((sys_enter_openat st t src).1.fd = -1
        ∧ (sys_enter_openat st t src).1.count = 0
        ∧ (sys_enter_unlinkat st t src).1.fd = -1
        ∧ (sys_enter_unlinkat st t src).1.count = 0)
      ∧ cstr (sys_enter_write st t fd cnt).1.filename = [] := by
  refine ⟨⟨?_, ?_, ?_⟩, ⟨rfl, rfl, rfl, rfl⟩, write_filename_empty⟩
  · show (1 : Int) ∈ ([1, 2, 3] : List Int); decide
  · show (2 : Int) ∈ ([1, 2, 3] : List Int); decide
  · show (3 : Int) ∈ ([1, 2, 3] : List Int); decide

/-- Claim C7: the `pid` field of every emitted record is the calling
process's thread-group id (the upper 32 bits of
`bpf_get_current_pid_tgid()`), not the thread id. -/
theorem pid_is_tgid (st : data_t) (t : TaskCtx) (src : Option (List Nat))
    (fd cnt : Nat) :
    (sys_enter_openat st t src).1.pid = t.tgid
      ∧ (sys_enter_write st t fd cnt).1.pid = t.tgid
      ∧ (sys_enter_unlinkat st t src).1.pid = t.tgid :=
  ⟨pid_field t, pid_field t, pid_field t⟩

/-- Claim C8 (counterexample): the first field of `struct data_t` is
`pid`, not `syscall` — the claimed layout, with the kind discriminator
first, does not match the struct declaration. -/
theorem layout_first_field_not_syscall :
    ¬ data_t_layout.head?.map FieldSpec.name = some "syscall" := by
  decide

/-- Claim C8 (amended): the single binary layout shared by all three
interception points has the fields in declaration order `pid`, `comm`,
`path`, `syscall_kind`, `fd`, `byte_count` at fixed offsets
0, 4, 20, 276, 280, 288 with fixed sizes — `syscall_kind` is the first
field assigned by each handler, but not the first field in memory. -/
theorem data_t_layout_order :
    data_t_layout =
      [⟨"pid", 0, 4⟩, ⟨"comm", 4, 16⟩, ⟨"filename", 20, 256⟩,
        ⟨"syscall", 276, 4⟩, ⟨"fd", 280, 4⟩, ⟨"count", 288, 8⟩] := by
  decide

/-- Claim C9: every handler returns the no-op result 0 to the kernel,
for every input, failed user-memory reads included. -/
theorem handlers_return_zero (st : data_t) (t : TaskCtx)
    (src : Option (List Nat)) (fd cnt : Nat) :
    (sys_enter_openat st t src).2 = 0
      ∧ (sys_enter_write st t fd cnt).2 = 0
      ∧ (sys_enter_unlinkat st t src).2 = 0 :=
  ⟨rfl, rfl, rfl⟩

/-- Claim C10: every handler zero-initialises its stack-local record, so
the submitted record does not depend on the previous stack contents, the
implicit padding bytes are zero, and every byte of the path and comm
buffers past the stored string's terminator is zero; two invocations
with identical task metadata and arguments yield identical records. -/
theorem zero_init_determinism (st st' : data_t) (t : TaskCtx)
    (src : Option (List Nat)) (fd cnt : Nat) :
    (sys_enter_openat st t src = sys_enter_openat st' t src
        ∧ sys_enter_write st t fd cnt = sys_enter_write st' t fd cnt
        ∧ sys_enter_unlinkat st t src = sys_enter_unlinkat st' t src)
      ∧ ((sys_enter_openat st t src).1.pad = List.replicate 4 0
        ∧ (sys_enter_write st t fd cnt).1.pad = List.replicate 4 0
        ∧ (sys_enter_unlinkat st t src).1.pad = List.replicate 4 0)
      ∧ (∃ k, (sys_enter_openat st t src).1.filename =
            cstr (sys_enter_openat st t src).1.filename ++ 0 :: List.replicate k 0)
      ∧ (∃ k, (sys_enter_unlinkat st t src).1.filename =
            cstr (sys_enter_unlinkat st t src).1.filename ++ 0 :: List.replicate k 0)
      ∧ (∃ k, (sys_enter_write st t fd cnt).1.filename =
            cstr (sys_enter_write st t fd cnt).1.filename ++ 0 :: List.replicate k 0)
      ∧ (∃ k, (sys_enter_openat st t src).1.comm =
            cstr (sys_enter_openat st t src).1.comm ++ 0 :: List.replicate k 0) :=
  ⟨⟨rfl, rfl, rfl⟩, ⟨rfl, rfl, rfl⟩, read_str_tail src, read_str_tail src,
   ⟨255, by
      show (List.replicate 256 0).set 0 0 =
        cstr ((List.replicate 256 0).set 0 0) ++ 0 :: List.replicate 255 0
      decide⟩,
   comm_tail t.comm⟩

end Monitor
